import Mathlib

/-!
Shallow embedding of the MAST web-GUI plugin bridge
(mast/plugin_utils/plugin_functions.py): the catalog lookup
_get_arguments, the argument-coercion loop of call_method, the invoker
_call_method with its empty-appliances guard and unhandled-exception
conversion, and a credential codec modelled from the spec (the module
mast.xor is imported by the source but is not among the source files).

Python values are embedded as the inductive PyVal, Python exceptions the
embedded fragments can raise as the inductive PyErr, and an exception
raised by a wrapped command callable as a structure carrying its message
text (str(e)) and its traceback text.
-/

namespace Mast

/-- Python runtime values occurring as parameter defaults and as coerced
argument values in plugin_functions.py: bool, int, str, list of strings,
float and None. -/
inductive PyVal : Type where
  | bool (b : Bool)
  | int (n : Int)
  | str (s : String)
  | list (xs : List String)
  | float (q : ℚ)
  | none
deriving Repr, DecidableEq

/-- Python exceptions that the embedded code fragments can raise, plus
notFound, the abstract error kind the specification names for a failed
catalog lookup; notFound is never produced by a code-derived definition,
only by the specification-side resolveSpec. -/
inductive PyErr : Type where
  | typeError
  | valueError
  | indexError
  | unboundLocalError
  | notFound
deriving Repr, DecidableEq

/-- An exception raised by a wrapped command callable: the text str(e)
would give and the text traceback.format_exc() would give. -/
structure Exn : Type where
  msg : String
  traceback : String
deriving Repr, DecidableEq

/-- A submitted form as flask exposes it to call_method: an ordered
multi-map from field name to string values (werkzeug MultiDict), embedded
as the list of its (key, value) pairs. -/
abbrev Form : Type := List (String × String)

/-- MultiDict.get: the first value stored for the key, when any. -/
def formGet (form : Form) (key : String) : Option String :=
  (form.find? (fun p => p.1 == key)).map (fun p => p.2)

/-- MultiDict.getlist: every value stored for the key, in order. -/
def formGetList (form : Form) (key : String) : List String :=
  (form.filter (fun p => p.1 == key)).map (fun p => p.2)

/-- Lookup in the coerced keyword-argument mapping (a Python dict built by
inserting each parameter once, in declaration order). -/
def kwLookup (kwargs : List (String × PyVal)) (key : String) : Option PyVal :=
  (kwargs.find? (fun p => p.1 == key)).map (fun p => p.2)

/-- Key membership in the coerced keyword-argument mapping. -/
def kwContains (kwargs : List (String × PyVal)) (key : String) : Bool :=
  kwargs.any (fun p => p.1 == key)

/-- Decimal digits of an integer literal, most significant first; fails on
an empty list or any non-digit character. -/
def parseDigits : List Char → Option Nat
  | [] => Option.none
  | cs =>
    cs.foldl
      (fun acc c =>
        match acc with
        | Option.none => Option.none
        | Option.some n =>
          if c.isDigit then Option.some (n * 10 + (c.toNat - 48)) else Option.none)
      (Option.some 0)

/-- Python int(s) applied to a string: optional surrounding spaces, an
optional sign, then decimal digits; anything else raises ValueError
(returned as Option.none here and turned into the error at the call
site). -/
def pyIntOfString (s : String) : Option Int :=
  let cs := s.data.dropWhile (fun c => c == ' ')
  let cs := (cs.reverse.dropWhile (fun c => c == ' ')).reverse
  match cs with
  | '-' :: rest => (parseDigits rest).map (fun n => -(n : Int))
  | '+' :: rest => (parseDigits rest).map (fun n => (n : Int))
  | rest => (parseDigits rest).map (fun n => (n : Int))

/-- Python truthiness of a string: every nonempty string is truthy. -/
def pyTruthyStr (s : String) : Bool := !(s == "")

/-- Leading-character test: b.startswith on the one-character posix
separator. -/
def strHeadIs (c : Char) (s : String) : Bool :=
  match s.data with
  | [] => false
  | x :: _ => x == c

/-- Trailing-character test: path.endswith on the one-character posix
separator. -/
def strLastIs (c : Char) (s : String) : Bool :=
  match s.data.getLast? with
  | Option.none => false
  | Option.some x => x == c

/-- posixpath.join for one extra component. -/
def posixJoin2 (path b : String) : String :=
  if strHeadIs '/' b then b
  else if path == "" || strLastIs '/' path then path ++ b
  else path ++ "/" ++ b

/-- posixpath.join folded over the remaining components. -/
def posixJoin (a : String) (ps : List String) : String :=
  ps.foldl posixJoin2 a

/-- Index of the last occurrence of a character, as Python str.rfind:
-1 when the character is absent. -/
def pyRFind (c : Char) (s : List Char) : Int :=
  (List.range s.length).foldl
    (fun acc i => if s.getD i ' ' == c then (i : Int) else acc) (-1)

/-- Extension part of posixpath.splitext: the suffix starting at the last
dot of the basename, unless every character between the basename start and
that dot is itself a dot (leading dots carry no extension). -/
def splitextExt (p : String) : String :=
  let cs := p.data
  let sepIndex := pyRFind '/' cs
  let dotIndex := pyRFind '.' cs
  if sepIndex < dotIndex then
    let nameStart := (sepIndex + 1).toNat
    let leading := (cs.drop nameStart).take (dotIndex.toNat - nameStart)
    if leading.all (fun c => c == '.') then "" else String.mk (cs.drop dotIndex.toNat)
  else ""

/-- A command registered in a plugin category index (cli._command_list):
its dunder name, the argument names and default values that
inspect.getfullargspec reports, and the callable itself, which returns a
(display output, history) pair or raises. -/
structure PyFn : Type where
  name : String
  args : List String
  defaults : List PyVal
  call : List (String × PyVal) → Except Exn (String × String)

/-- Scan of the category index performed by _get_arguments: categories in
iteration order, and within each category the registered items in order;
the first item whose dunder name matches wins (the found flag then breaks
both loops). -/
def findCommand (fn_name : String) : List (String × List PyFn) → Option PyFn
  | [] => Option.none
  | (_, items) :: rest =>
    match items.find? (fun item => item.name == fn_name) with
    | Option.some item => Option.some item
    | Option.none => findCommand fn_name rest

/-- mast.plugin_utils.plugin_functions._get_arguments: resolve fn_name in
the plugin's category index and return (zip of argument names with
defaults, the callable). When no item matches, control falls off both
loops with the argspec variables never assigned, so the closing
list(zip(args, defaults)) raises UnboundLocalError. -/
def _get_arguments (commandList : List (String × List PyFn)) (fn_name : String) :
    Except PyErr (List (String × PyVal) × PyFn) :=
  match findCommand fn_name commandList with
  | Option.some item => Except.ok (item.args.zip item.defaults, item)
  | Option.none => Except.error PyErr.unboundLocalError

/-- Modelled from the spec: the Command Catalog contract of section 4.1,
resolve(plugin, name), which fails with NotFound when no command with the
requested name exists under the plugin's category index. This is the
specification-side counterpart of _get_arguments, kept to compare the
error kind each produces. -/
def resolveSpec (commandList : List (String × List PyFn)) (fn_name : String) :
    Except PyErr (List (String × PyVal) × PyFn) :=
  match findCommand fn_name commandList with
  | Option.some item => Except.ok (item.args.zip item.defaults, item)
  | Option.none => Except.error PyErr.notFound

/-- Coercion of one (arg, default) pair by the call_method loop, returning
the value stored as kwargs[arg], Option.none when the default's type
matches no branch of the isinstance chain (for example float), or the
exception the branch raises. name is the submitted callable name, ts the
Timestamp().timestamp taken at the top of call_method, and decodeCred the
credential decoding (xordecode keyed by the session cookie). -/
def coerceArg (name ts : String) (decodeCred : String → String) (form : Form) :
    String × PyVal → Except PyErr (Option PyVal)
  | (arg, PyVal.bool _) =>
    if arg == "web" then Except.ok (Option.some (PyVal.bool true))
    else
      match formGet form arg with
      | Option.some v =>
        if v == "true" then Except.ok (Option.some (PyVal.bool true))
        else Except.ok (Option.some (PyVal.bool false))
      | Option.none => Except.ok (Option.some (PyVal.bool false))
  | (arg, PyVal.list _) =>
    if arg == "appliances" then
      Except.ok (Option.some (PyVal.list (formGetList form (arg ++ "[]"))))
    else if arg == "credentials" then
      Except.ok (Option.some (PyVal.list ((formGetList form (arg ++ "[]")).map decodeCred)))
    else
      Except.ok (Option.some (PyVal.list (formGetList form (arg ++ "[]"))))
  | (arg, PyVal.str dflt) =>
    if arg == "out_dir" then
      Except.ok (Option.some (PyVal.str (posixJoin "tmp" ["web", name, ts])))
    else if arg == "out_file" then
      Except.ok (Option.some (PyVal.str
        (posixJoin "tmp" ["web", name, ts ++ "-" ++ name ++ splitextExt dflt])))
    else
      match formGet form arg with
      | Option.some v =>
        if v == "" then Except.ok (Option.some (PyVal.str dflt))
        else Except.ok (Option.some (PyVal.str v))
      | Option.none => Except.ok (Option.some (PyVal.str dflt))
  | (arg, PyVal.int dflt) =>
    match formGet form arg with
    | Option.none => Except.error PyErr.typeError
    | Option.some v =>
      match pyIntOfString v with
      | Option.none => Except.error PyErr.valueError
      | Option.some n =>
        if n == 0 then Except.ok (Option.some (PyVal.int dflt))
        else Except.ok (Option.some (PyVal.int n))
  | (arg, PyVal.none) =>
    match formGet form arg with
    | Option.some v =>
      if v == "" then Except.ok (Option.some PyVal.none)
      else Except.ok (Option.some (PyVal.str v))
    | Option.none => Except.ok (Option.some PyVal.none)
  | (_, PyVal.float _) => Except.ok Option.none

/-- Default types the isinstance chain of call_method recognizes; a float
default matches none of its branches. -/
def recognizedDefault : PyVal → Bool
  | PyVal.float _ => false
  | _ => true

/-- Argument-assembly loop of call_method: coerce each declared
(arg, default) pair, in declaration order, into the kwargs mapping; an
exception raised while coercing one parameter aborts the loop before the
later parameters are processed. -/
def buildKwargs (name ts : String) (decodeCred : String → String) (form : Form) :
    List (String × PyVal) → Except PyErr (List (String × PyVal))
  | [] => Except.ok []
  | (arg, dflt) :: rest =>
    match coerceArg name ts decodeCred form (arg, dflt) with
    | Except.error err => Except.error err
    | Except.ok Option.none => buildKwargs name ts decodeCred form rest
    | Except.ok (Option.some v) =>
      match buildKwargs name ts decodeCred form rest with
      | Except.error err => Except.error err
      | Except.ok tl => Except.ok ((arg, v) :: tl)

/-- Fixed message substituted by _call_method when no appliance was
selected. -/
def noApplianceMsg : String := "Must select at least one appliance."

/-- Empty-appliances guard of _call_method: the truth value of the Python
expression (not kwargs["appliances"][0]) when "appliances" is a key,
subscript semantics included — indexing an empty list or empty string
raises IndexError, indexing a non-subscriptable value raises TypeError,
and a nonempty string yields its truthy one-character first element.
Yields false when "appliances" is not a key. -/
def applGuard (kwargs : List (String × PyVal)) : Except PyErr Bool :=
  match kwLookup kwargs "appliances" with
  | Option.none => Except.ok false
  | Option.some (PyVal.list []) => Except.error PyErr.indexError
  | Option.some (PyVal.list (x :: _)) => Except.ok (!(pyTruthyStr x))
  | Option.some (PyVal.str s) =>
    match s.data with
    | [] => Except.error PyErr.indexError
    | _ :: _ => Except.ok false
  | Option.some _ => Except.error PyErr.typeError

/-- Display message _call_method builds for an exception e escaping the
command callable. -/
def unhandledMsg (e : String) : String :=
  "Sorry, an unhandled exception occurred while performing action:\n\n\t " ++ e

/-- History log file name built inside _call_method: the inner timestamp,
a dash, the random suffix, and the .log extension. -/
def histId (ts2 : String) (rand : Nat) : String :=
  ts2 ++ "-" ++ toString rand ++ ".log"

/-- Value returned by _call_method when "web" is a key of kwargs: the
markup display output, the history file id handed back to call_method,
and the history text persisted to the log file. -/
structure InvokeResult : Type where
  out : String
  hid : String
  hist : String
deriving Repr, DecidableEq

/-- mast.plugin_utils.plugin_functions._call_method: evaluate the
empty-appliances guard (which can itself raise), substitute the fixed
no-appliance responder when it fires, then — only when "web" is a key of
kwargs — invoke the callable, converting any exception it raises into the
unhandled-exception message as output and the traceback as history, and
return the (output, history id) pair after persisting the history; when
"web" is absent the function falls off its end and returns None. ts2 is
the Timestamp() taken inside _call_method and rand the random suffix. -/
def _call_method (ts2 : String) (rand : Nat)
    (func : List (String × PyVal) → Except Exn (String × String))
    (kwargs : List (String × PyVal)) : Except PyErr (Option InvokeResult) :=
  match applGuard kwargs with
  | Except.error err => Except.error err
  | Except.ok fired =>
    let f := if fired then (fun _ => Except.ok (noApplianceMsg, noApplianceMsg)) else func
    if kwContains kwargs "web" then
      match f kwargs with
      | Except.ok (out, hist) =>
        Except.ok (Option.some ⟨out, histId ts2 rand, hist⟩)
      | Except.error e =>
        Except.ok (Option.some ⟨unhandledMsg e.msg, histId ts2 rand, e.traceback⟩)
    else
      Except.ok Option.none

/-- Tuple unpacking (out, history_id = _call_method(func, kwargs)) at the
call site inside call_method: unpacking the None returned for a kwargs
mapping without "web" raises TypeError. -/
def unpackInvoke : Option InvokeResult → Except PyErr InvokeResult
  | Option.some r => Except.ok r
  | Option.none => Except.error PyErr.typeError

/-- Invocation core of call_method: assemble kwargs from the declared
arguments, run _call_method, and unpack its result. -/
def invokeFromForm (name ts ts2 : String) (rand : Nat)
    (decodeCred : String → String) (form : Form)
    (arguments : List (String × PyVal))
    (func : List (String × PyVal) → Except Exn (String × String)) :
    Except PyErr InvokeResult :=
  match buildKwargs name ts decodeCred form arguments with
  | Except.error err => Except.error err
  | Except.ok kwargs =>
    match _call_method ts2 rand func kwargs with
    | Except.error err => Except.error err
    | Except.ok r => unpackInvoke r

/-- Modelled from the spec: worker of the credential codec of mast.xor,
whose module is imported by plugin_functions.py but is not among the
source files; section 4.3 specifies a symmetric, session-keyed reversible
XOR transform over credential strings. Strings are embedded as their byte
lists and the key is cycled over the input. -/
def xorWithKey (key : List Nat) : Nat → List Nat → List Nat
  | _, [] => []
  | i, b :: bs => (b ^^^ key.getD (i % key.length) 0) :: xorWithKey key (i + 1) bs

/-- Modelled from the spec: xorencode of mast.xor. -/
def xorencode (s key : List Nat) : List Nat := xorWithKey key 0 s

/-- Modelled from the spec: xordecode of mast.xor, the symmetric
inverse. -/
def xordecode (s key : List Nat) : List Nat := xorWithKey key 0 s

/-- Claim C4: the intended guard is right and the code slips. At the exact
situation the guard exists for — no appliance checked, so kwargs holds an
empty appliances list — the guard expression kwargs["appliances"][0]
raises IndexError before any substitution happens, so _call_method raises
instead of returning the fixed no-appliance message, even for a callable
that would return normally. -/
theorem c4_empty_appliances_raises :
    _call_method "20240101-000000" 10000 (fun _ => Except.ok ("ok", "ok"))
      [("web", PyVal.bool true), ("appliances", PyVal.list [])]
      = Except.error PyErr.indexError := rfl

/-- Claim C6, as stated, is false at its own concrete scenario: for
descriptor default report.xlsx, command name audit and timestamp
20240101-000000 the synthesized out_file is
tmp/web/audit/20240101-000000-audit.xlsx — the full timestamp prefixes the
file name — not the claimed tmp/web/audit/20240101-audit-audit.xlsx. -/
theorem c6_counterexample :
    coerceArg "audit" "20240101-000000" id [] ("out_file", PyVal.str "report.xlsx")
      = Except.ok (Option.some (PyVal.str "tmp/web/audit/20240101-000000-audit.xlsx"))
    ∧ ("tmp/web/audit/20240101-000000-audit.xlsx" : String)
      ≠ "tmp/web/audit/20240101-audit-audit.xlsx" :=
  ⟨rfl, by decide⟩

/-- Claim C6 amended: a string-defaulted out_file is synthesized as
os.path.join of tmp, web, the command name and {timestamp}-{command
name}{extension of the default} with the extension taken by splitext from
the descriptor default, independent of the submission; for default
report.xlsx the preserved extension is .xlsx and the concrete scenario
(command audit, timestamp 20240101-000000) yields
tmp/web/audit/20240101-000000-audit.xlsx. -/
theorem c6_out_file_synthesis (name ts dflt : String) (dec : String → String)
    (form : Form) :
    coerceArg name ts dec form ("out_file", PyVal.str dflt)
      = Except.ok (Option.some (PyVal.str
          (posixJoin "tmp" ["web", name, ts ++ "-" ++ name ++ splitextExt dflt])))
    ∧ splitextExt "report.xlsx" = ".xlsx"
    ∧ coerceArg "audit" "20240101-000000" dec form ("out_file", PyVal.str "report.xlsx")
      = Except.ok (Option.some (PyVal.str "tmp/web/audit/20240101-000000-audit.xlsx")) :=
  ⟨rfl, rfl, rfl⟩

/-- Claim C7, as stated, is false: the field flag is present in the
submission with the truthy string yes, yet the coerced value is false,
because the code compares the submitted value against the literal string
true rather than testing truthiness. -/
theorem c7_counterexample :
    coerceArg "cmd" "ts" id [("flag", "yes")] ("flag", PyVal.bool false)
      = Except.ok (Option.some (PyVal.bool false))
    ∧ pyTruthyStr "yes" = true :=
  ⟨rfl, rfl⟩

/-- Claim C7 amended: a parameter named web with boolean default is always
coerced to true; any other boolean-defaulted parameter is coerced to true
exactly when the submission carries the literal string true for it, and to
false in every other case — absent field, or any other submitted value,
truthy or not. -/
theorem c7_bool_coercion (arg name ts : String) (dec : String → String)
    (form : Form) (b : Bool) :
    coerceArg name ts dec form (arg, PyVal.bool b)
      = Except.ok (Option.some (PyVal.bool
          (arg == "web" || formGet form arg == Option.some "true"))) := by
  by_cases hw : arg == "web"
  · simp [coerceArg, hw]
  · cases hv : formGet form arg with
    | none => simp [coerceArg, hw, hv]
    | some v =>
      by_cases ht : v == "true"
      · have : v = "true" := by simpa using ht
        simp [coerceArg, hw, hv, this]
      · have : ¬(v = "true") := by simpa using ht
        simp [coerceArg, hw, hv, ht, this]

/-- Claim C1, as stated, is false: with kwargs containing "web" and an
appliances entry whose first element is the falsy empty string, the
no-appliance guard replaces the callable before the protected call, so a
callable that raises is never consulted — the returned display output is
the fixed no-appliance message, not the generic unhandled-exception
message carrying the exception text. -/
theorem c1_counterexample :
    _call_method "20240102-000000" 12345
      (fun _ => Except.error ⟨"boom", "Traceback: boom"⟩)
      [("web", PyVal.bool true), ("appliances", PyVal.list [""])]
      = Except.ok (Option.some
          ⟨noApplianceMsg, histId "20240102-000000" 12345, noApplianceMsg⟩)
    ∧ noApplianceMsg ≠ unhandledMsg "boom" :=
  ⟨rfl, by decide⟩

/-- Claim C1 amended: whenever kwargs contains the key "web" and the
empty-appliance guard neither raises nor fires (the appliances entry is
absent, or its first element is a truthy nonempty string), a callable that
raises exception e is downgraded, never propagated: _call_method returns
the unhandled-exception message carrying str(e) as display output and the
full traceback as the persisted history. -/
theorem c1_unhandled_exception_converted
    (kwargs : List (String × PyVal))
    (func : List (String × PyVal) → Except Exn (String × String))
    (e : Exn) (ts2 : String) (rand : Nat)
    (hweb : kwContains kwargs "web" = true)
    (hguard : applGuard kwargs = Except.ok false)
    (herr : func kwargs = Except.error e) :
    _call_method ts2 rand func kwargs
      = Except.ok (Option.some
          ⟨unhandledMsg e.msg, histId ts2 rand, e.traceback⟩) := by
  unfold _call_method
  rw [hguard]
  simp only [if_false, Bool.false_eq_true, hweb, if_true, herr]

/-- Concrete instance of c1_unhandled_exception_converted: a raising
callable with a web-keyed kwargs mapping and no appliances entry. -/
theorem c1_witness :
    _call_method "20240102-000000" 7 (fun _ => Except.error ⟨"oops", "tb"⟩)
      [("web", PyVal.bool true)]
      = Except.ok (Option.some
          ⟨unhandledMsg "oops", histId "20240102-000000" 7, "tb"⟩) :=
  c1_unhandled_exception_converted [("web", PyVal.bool true)]
    (fun _ => Except.error ⟨"oops", "tb"⟩) ⟨"oops", "tb"⟩
    "20240102-000000" 7 rfl rfl rfl

/-- Claim C2, as stated, is false: a declared parameter whose default is a
float matches no branch of the isinstance chain of call_method, so its
name is simply missing from the assembled kwargs mapping. -/
theorem c2_counterexample :
    buildKwargs "cmd" "ts" id [] [("threshold", PyVal.float (3 / 2))]
      = Except.ok [] := rfl

/-- Auxiliary: a successful coercion of one parameter yields a value
exactly when the default's type is one the isinstance chain recognizes. -/
theorem coerceArg_isSome_eq (name ts : String) (dec : String → String)
    (form : Form) (arg : String) (d : PyVal) (r : Option PyVal)
    (h : coerceArg name ts dec form (arg, d) = Except.ok r) :
    r.isSome = recognizedDefault d := by
  cases d <;> simp only [coerceArg, recognizedDefault] at h ⊢ <;>
    (repeat' split at h) <;>
    (try cases h) <;> rfl

/-- Claim C2 amended: when the coercion loop of call_method completes
without raising, the kwargs mapping holds exactly the declared parameter
names whose defaults are of a type the isinstance chain recognizes (bool,
list, str, int or None), in declaration order; a declared parameter whose
default is of any other type, such as a float, is omitted. -/
theorem c2_kwargs_keys_exact (name ts : String) (dec : String → String)
    (form : Form) (arguments : List (String × PyVal))
    (kwargs : List (String × PyVal))
    (h : buildKwargs name ts dec form arguments = Except.ok kwargs) :
    kwargs.map Prod.fst
      = (arguments.filter (fun p => recognizedDefault p.2)).map Prod.fst := by
  induction arguments generalizing kwargs with
  | nil =>
    simp only [buildKwargs] at h
    cases h
    rfl
  | cons p rest ih =>
    obtain ⟨arg, dflt⟩ := p
    simp only [buildKwargs] at h
    cases hc : coerceArg name ts dec form (arg, dflt) with
    | error err => rw [hc] at h; cases h
    | ok r =>
      rw [hc] at h
      have hrec := coerceArg_isSome_eq name ts dec form arg dflt r hc
      cases r with
      | none =>
        simp only [Option.isSome] at hrec
        simp only [List.filter, ← hrec]
        exact ih kwargs h
      | some v =>
        simp only [Option.isSome] at hrec
        cases hb : buildKwargs name ts dec form rest with
        | error err => rw [hb] at h; cases h
        | ok tl =>
          rw [hb] at h
          cases h
          simp only [List.filter, ← hrec, List.map]
          exact congrArg (arg :: ·) (ih tl hb)

/-- Concrete instance of c2_kwargs_keys_exact: a descriptor mixing a
skipped web flag, a float-defaulted parameter and a text parameter; the
float-defaulted name is absent from the assembled kwargs keys. -/
theorem c2_witness :
    [("web", PyVal.bool true), ("host", PyVal.str "h")].map Prod.fst
      = ([("web", PyVal.bool false), ("threshold", PyVal.float (1 / 2)),
          ("host", PyVal.str "h")].filter
            (fun p => recognizedDefault p.2)).map Prod.fst :=
  c2_kwargs_keys_exact "cmd" "ts" id []
    [("web", PyVal.bool false), ("threshold", PyVal.float (1 / 2)),
     ("host", PyVal.str "h")]
    [("web", PyVal.bool true), ("host", PyVal.str "h")] rfl

/-- Claim C3, as stated, is false in its absent-field half: for an
integer-defaulted parameter whose field is missing from the submission,
call_method evaluates int(None), which raises TypeError — coercion does
raise rather than falling back to the descriptor default. -/
theorem c3_counterexample :
    buildKwargs "cmd" "ts" id [] [("delay", PyVal.int 5)]
      = Except.error PyErr.typeError := rfl

/-- Claim C3 amended: for an integer descriptor default, coercion parses
the submitted string with int(); when the parse yields zero the coerced
value falls back to the descriptor default — in particular delay
submitted as the string 0 against default 5 coerces to 5 without
raising — but an absent field raises TypeError (int applied to None)
instead of falling back. -/
theorem c3_int_coercion (arg name ts : String) (d : Int)
    (dec : String → String) :
    (∀ form s, formGet form arg = Option.some s →
      pyIntOfString s = Option.some 0 →
      coerceArg name ts dec form (arg, PyVal.int d)
        = Except.ok (Option.some (PyVal.int d)))
    ∧ (∀ form, formGet form arg = Option.none →
      coerceArg name ts dec form (arg, PyVal.int d)
        = Except.error PyErr.typeError)
    ∧ (∀ form s n, formGet form arg = Option.some s →
      pyIntOfString s = Option.some n → n ≠ 0 →
      coerceArg name ts dec form (arg, PyVal.int d)
        = Except.ok (Option.some (PyVal.int n))) := by
  refine ⟨?_, ?_, ?_⟩
  · intro form s hget hparse
    simp [coerceArg, hget, hparse]
  · intro form hget
    simp [coerceArg, hget]
  · intro form s n hget hparse hn
    simp [coerceArg, hget, hparse, hn]

/-- Concrete instance of c3_int_coercion at the scenario of the claim:
descriptor delay with default 5, submitted as the string 0, coerces to 5;
the same descriptor against an empty submission raises TypeError. -/
theorem c3_witness :
    coerceArg "cmd" "ts" id [("delay", "0")] ("delay", PyVal.int 5)
      = Except.ok (Option.some (PyVal.int 5))
    ∧ coerceArg "cmd" "ts" id [] ("delay", PyVal.int 5)
      = Except.error PyErr.typeError :=
  ⟨(c3_int_coercion "delay" "cmd" "ts" 5 id).1 [("delay", "0")] "0" rfl rfl,
   (c3_int_coercion "delay" "cmd" "ts" 5 id).2.1 [] rfl⟩

/-- Claim C5, as stated, is false: the skipped web parameter is present in
the coerced mapping but its value is the forced true, not the descriptor
default false. -/
theorem c5_counterexample :
    buildKwargs "cmd" "ts" id [] [("web", PyVal.bool false)]
      = Except.ok [("web", PyVal.bool true)]
    ∧ PyVal.bool true ≠ PyVal.bool false :=
  ⟨rfl, by decide⟩

/-- Claim C5 amended: every Skipped parameter is always present in the
coerced mapping, but not, in general, with its descriptor default: web is
forced true, appliances and credentials are taken from the submission
(credentials decoded through the codec), out_dir and a string-defaulted
out_file are synthesized paths; only an absent-defaulted out_file whose
field is not submitted receives its descriptor default None. -/
theorem c5_skipped_params_present (name ts : String) (dec : String → String)
    (form : Form) (b : Bool) (l1 l2 : List String) (s1 s2 : String) :
    coerceArg name ts dec form ("web", PyVal.bool b)
      = Except.ok (Option.some (PyVal.bool true))
    ∧ coerceArg name ts dec form ("appliances", PyVal.list l1)
      = Except.ok (Option.some (PyVal.list (formGetList form "appliances[]")))
    ∧ coerceArg name ts dec form ("credentials", PyVal.list l2)
      = Except.ok (Option.some
          (PyVal.list ((formGetList form "credentials[]").map dec)))
    ∧ coerceArg name ts dec form ("out_dir", PyVal.str s1)
      = Except.ok (Option.some (PyVal.str (posixJoin "tmp" ["web", name, ts])))
    ∧ coerceArg name ts dec form ("out_file", PyVal.str s2)
      = Except.ok (Option.some (PyVal.str
          (posixJoin "tmp" ["web", name, ts ++ "-" ++ name ++ splitextExt s2])))
    ∧ (formGet form "out_file" = Option.none →
        coerceArg name ts dec form ("out_file", PyVal.none)
          = Except.ok (Option.some PyVal.none)) := by
  refine ⟨rfl, rfl, rfl, rfl, rfl, ?_⟩
  intro hget
  simp [coerceArg, hget]

/-- Concrete instance of c5_skipped_params_present: each skipped parameter
kind against an empty submission, the absent-defaulted out_file receiving
its default None. -/
theorem c5_witness :
    coerceArg "audit" "20240101-000000" id [] ("web", PyVal.bool false)
      = Except.ok (Option.some (PyVal.bool true))
    ∧ coerceArg "audit" "20240101-000000" id [] ("out_file", PyVal.none)
      = Except.ok (Option.some PyVal.none) :=
  ⟨(c5_skipped_params_present "audit" "20240101-000000" id [] false [] []
      "o" "report.xlsx").1,
   (c5_skipped_params_present "audit" "20240101-000000" id [] false [] []
      "o" "report.xlsx").2.2.2.2.2 rfl⟩

/-- Claim C8, as stated, is false in its error kind: resolving a name
absent from the category index does fail and the failure does reach the
immediate caller, but the concrete error is the accidental
UnboundLocalError raised by list(zip(args, defaults)) over never-assigned
variables, not the NotFound error the catalog contract names. -/
theorem c8_counterexample :
    _get_arguments
      [("category", [⟨"cmd", ["web"], [PyVal.bool false],
        fun _ => Except.ok ("", "")⟩])] "missing"
      = Except.error PyErr.unboundLocalError
    ∧ resolveSpec
      [("category", [⟨"cmd", ["web"], [PyVal.bool false],
        fun _ => Except.ok ("", "")⟩])] "missing"
      = Except.error PyErr.notFound
    ∧ PyErr.unboundLocalError ≠ PyErr.notFound :=
  ⟨rfl, rfl, by decide⟩

/-- Claim C8 amended: when no command with the requested name exists under
the plugin's category index, _get_arguments never succeeds — it raises,
and the error surfaces to the immediate caller — but the concrete error is
an UnboundLocalError (the argspec variables referenced before assignment),
not a dedicated NotFound error. -/
theorem c8_missing_command_errors (commandList : List (String × List PyFn))
    (fn_name : String)
    (h : ∀ cat ∈ commandList, ∀ item ∈ cat.2, item.name ≠ fn_name) :
    _get_arguments commandList fn_name
      = Except.error PyErr.unboundLocalError := by
  have hfind : findCommand fn_name commandList = Option.none := by
    induction commandList with
    | nil => rfl
    | cons cat rest ih =>
      obtain ⟨cname, items⟩ := cat
      have hnone : items.find? (fun item => item.name == fn_name)
          = Option.none := by
        rw [List.find?_eq_none]
        intro item hmem
        have := h (cname, items) (List.mem_cons_self _ _) item hmem
        simpa using this
      simp only [findCommand, hnone]
      exact ih (fun c hc => h c (List.mem_cons_of_mem _ hc))
  simp only [_get_arguments, hfind]

/-- Concrete instance of c8_missing_command_errors: a one-category index
holding one command, queried for a name it does not hold. -/
theorem c8_witness :
    _get_arguments
      [("category", [⟨"tarball", ["web"], [PyVal.bool false],
        fun _ => Except.ok ("", "")⟩])] "absent"
      = Except.error PyErr.unboundLocalError :=
  c8_missing_command_errors
    [("category", [⟨"tarball", ["web"], [PyVal.bool false],
      fun _ => Except.ok ("", "")⟩])] "absent" (by simp)

/-- Auxiliary: applying the cycled-key XOR twice from the same starting
index is the identity. -/
theorem xorWithKey_involutive (key : List Nat) (i : Nat) (s : List Nat) :
    xorWithKey key i (xorWithKey key i s) = s := by
  induction s generalizing i with
  | nil => rfl
  | cons b bs ih => simp [xorWithKey, Nat.xor_cancel_right, ih]

/-- Claim C9: the credential codec round-trips — decoding the encoding of
any printable-ASCII plaintext under any nonempty key returns the
plaintext. The codec is modelled from the spec because mast.xor is not
among the source files; the round trip in fact holds for arbitrary byte
lists. -/
theorem c9_roundtrip (s k : List Nat)
    (_hs : ∀ b ∈ s, 32 ≤ b ∧ b ≤ 126) (_hk : k ≠ []) :
    xordecode (xorencode s k) k = s :=
  xorWithKey_involutive k 0 s

/-- Concrete instance of c9_roundtrip: the bytes of the string mast under
the one-byte key of an underscore. -/
theorem c9_witness :
    ((∀ b ∈ [109, 97, 115, 116], 32 ≤ b ∧ b ≤ 126)
      ∧ ([95] : List Nat) ≠ [])
    ∧ xordecode (xorencode [109, 97, 115, 116] [95]) [95]
      = [109, 97, 115, 116] :=
  ⟨⟨by decide, by decide⟩,
   c9_roundtrip [109, 97, 115, 116] [95] (by decide) (by decide)⟩

/-- Claim C10, as stated, is false in both directions at an empty
appliances list: with web present _call_method raises IndexError instead
of returning a pair, and with web absent it likewise raises instead of
returning None. -/
theorem c10_counterexample :
    _call_method "20240103-000000" 77 (fun _ => Except.ok ("o", "h"))
      [("web", PyVal.bool true), ("appliances", PyVal.list [])]
      = Except.error PyErr.indexError
    ∧ _call_method "20240103-000000" 77 (fun _ => Except.ok ("o", "h"))
      [("appliances", PyVal.list [])]
      = Except.error PyErr.indexError :=
  ⟨rfl, rfl⟩

/-- Claim C10 amended: provided the appliances guard itself does not raise
(the appliances entry, when present, is indexable with a defined first
element — for example a nonempty list), _call_method returns a result pair
exactly when web is a key of kwargs; when web is absent it returns None,
so the tuple unpacking in call_method raises TypeError for any command
whose signature lacks a boolean web parameter. -/
theorem c10_pair_iff_web (kwargs : List (String × PyVal))
    (func : List (String × PyVal) → Except Exn (String × String))
    (ts2 : String) (rand : Nat) (g : Bool)
    (hguard : applGuard kwargs = Except.ok g) :
    (kwContains kwargs "web" = true →
      ∃ r, _call_method ts2 rand func kwargs = Except.ok (Option.some r))
    ∧ (kwContains kwargs "web" = false →
      _call_method ts2 rand func kwargs = Except.ok Option.none
      ∧ unpackInvoke Option.none = Except.error PyErr.typeError) := by
  constructor
  · intro hweb
    unfold _call_method
    rw [hguard]
    simp only [hweb, if_true]
    cases hf : (if g then (fun _ => Except.ok (noApplianceMsg, noApplianceMsg))
        else func) kwargs with
    | ok r =>
      obtain ⟨out, hist⟩ := r
      exact ⟨⟨out, histId ts2 rand, hist⟩, rfl⟩
    | error e =>
      exact ⟨⟨unhandledMsg e.msg, histId ts2 rand, e.traceback⟩, rfl⟩
  · intro hweb
    refine ⟨?_, rfl⟩
    unfold _call_method
    rw [hguard]
    simp [hweb]

/-- Concrete instance of c10_pair_iff_web: a kwargs mapping with web
yields a pair; one without web yields None, whose unpacking raises
TypeError. -/
theorem c10_witness :
    (∃ r, _call_method "20240103-000000" 3 (fun _ => Except.ok ("o", "h"))
      [("web", PyVal.bool true)] = Except.ok (Option.some r))
    ∧ _call_method "20240103-000000" 3 (fun _ => Except.ok ("o", "h"))
      [("domain", PyVal.str "default")] = Except.ok Option.none
    ∧ unpackInvoke Option.none = Except.error PyErr.typeError :=
  ⟨(c10_pair_iff_web [("web", PyVal.bool true)]
      (fun _ => Except.ok ("o", "h")) "20240103-000000" 3 false rfl).1 rfl,
   (c10_pair_iff_web [("domain", PyVal.str "default")]
      (fun _ => Except.ok ("o", "h")) "20240103-000000" 3 false rfl).2 rfl⟩

end Mast
